import Mathlib

/-!
Verification of the OSI label printer core (`osi_printer.py`).

The program builds a byte command stream for a Nippon NP-3511D thermal
printer.  We embed the numerically relevant parts shallowly:

* distances are rational numbers (`ℚ`); every distance literal appearing in
  the program (9.5, 2, 4, 6.0, 31.875, integer label heights and gaps and the
  1/8 mm quantized spacings derived from them) is a dyadic rational, so the
  Python float arithmetic performed on them is exact and agrees with `ℚ`;
* `int(x)` in Python truncates toward zero: this is `pyint` below;
* `a % b` on Python floats with `b > 0` is `a - b * ⌊a / b⌋`: `pymod` below;
* the command buffer built by the `escpos` `Dummy` printer is a list of
  commands.  Byte sequences the program assembles itself (every `_raw` call
  in the `Np3511d` subclass) are modelled byte for byte as `Cmd.raw`; the
  `text` and `barcode` calls delegate their byte encoding to the external
  `escpos` library, so they are kept as opaque commands carrying exactly the
  arguments the program passes.  The `Dummy.output` property of that library
  returns the accumulated buffer *without* clearing it, and `Dummy.clear`
  empties it; both facts are reflected where the jobs are modelled.
-/

namespace OsiPrinter

/-- Python `int(x)` applied to a float/rational: truncation toward zero. -/
def pyint (q : ℚ) : ℤ :=
  if q < 0 then ⌈q⌉ else ⌊q⌋

/-- Python `a % b` for floats with positive divisor `b`:
the remainder `a - b * ⌊a / b⌋`, which lies in `[0, b)` when `b > 0`. -/
def pymod (a b : ℚ) : ℚ :=
  a - b * ⌊a / b⌋

/-- `CUTTER_OFFSET = 9.5`: mm between print head and cutter. -/
def CUTTER_OFFSET : ℚ := 9.5

/-- `POST_CUT_ADV = 2`: mm the printer advances the paper after a cut. -/
def POST_CUT_ADV : ℚ := 2

/-- `MARGIN = 4`: mm from label edge to the first printed line. -/
def MARGIN : ℚ := 4

/-- `AJUSTE = 6.0`: empirical end-of-label advance correction, mm. -/
def AJUSTE : ℚ := 6

/-- One command appended to the `Dummy` printer buffer.

`raw` covers every `self._raw(...)` byte sequence assembled by the program
itself. `text` and `barcode` record the calls `p.text(s)` and
`p.barcode(code, bc, width, height, pos, align_ct)` whose byte encoding is
performed by the external `escpos` library. -/
inductive Cmd where
  | raw (bytes : List ℕ)
  | text (s : String)
  | barcode (code : String) (bc : String) (width : ℕ) (height : ℕ)
      (pos : String) (align_ct : Bool)
deriving DecidableEq

/-- `Np3511d.reset`: `ESC @`. -/
def reset : Cmd := Cmd.raw [0x1b, 0x40]

/-- `Np3511d.set_lf_pitch`: clamp the pitch to `[0, 255]`, emit `ESC 3 n`. -/
def set_lf_pitch (pitch : ℤ) : Cmd :=
  Cmd.raw [0x1b, 0x33, (if pitch < 0 then 0 else if pitch > 255 then 255 else pitch).toNat]

/-- `Np3511d.set_double_width_and_height`: `ESC ! 0x38`. -/
def set_double_width_and_height : Cmd := Cmd.raw [0x1b, 0x21, 0x38]

/-- `Np3511d.set_alignment`: match on the mode string, default LEFT. -/
def set_alignment (alignment : String) : Cmd :=
  Cmd.raw [0x1b, 0x61,
    if alignment = ("RIGHT") then 2 else if alignment = ("CENTER") then 1 else 0]

/-- `Np3511d.set_max_print_speed`: match on the speed, default slowest (class 4). -/
def set_max_print_speed (speed : ℤ) : Cmd :=
  Cmd.raw [0x1d, 0x53,
    if speed = 200 then 0 else if speed = 150 then 1
    else if speed = 125 then 2 else if speed = 100 then 3 else 4]

/-- `Np3511d.set_print_density`: clamp to `[65, 130]`, emit `GS ~ n`. -/
def set_print_density (density : ℚ) : Cmd :=
  Cmd.raw [0x1d, 0x7e,
    (pyint (if density < 65 then 65 else if density > 130 then 130 else density)).toNat]

/-- `Np3511d.set_enhanced_print_on`: `ESC E 1`. -/
def set_enhanced_print_on : Cmd := Cmd.raw [0x1b, 0x45, 0x01]

/-- `Np3511d.set_double_strike_on`: `ESC G 1`. -/
def set_double_strike_on : Cmd := Cmd.raw [0x1b, 0x47, 0x01]

/-- `Np3511d.set_margins`: `GS W l w`. -/
def set_margins (margen_izq ancho_impresion : ℚ) : Cmd :=
  Cmd.raw [0x1d, 0x57, (pyint margen_izq).toNat, (pyint ancho_impresion).toNat]

/-- `Np3511d.full_cut`: `ESC i`. -/
def full_cut : Cmd := Cmd.raw [0x1b, 0x69]

/-- The command sequence emitted by `feed_forward_mm`/`feed_backward_mm` for a
non-negative distance: `int(distance / 31.875)` full-step commands of
`int(31.875 * 8)` steps each (the `while multiplos > 0` loop), then one
remainder command of `int((distance % 31.875) * 8)` steps.  `dir` is the
direction byte: `0x4A` (`ESC J`) forward, `0x42` (`ESC B`) backward. -/
def feed_cmds (dir : ℕ) (distance : ℚ) : List Cmd :=
  List.replicate (pyint (distance / 31.875)).toNat
      (Cmd.raw [0x1b, dir, (pyint ((31.875 : ℚ) * 8)).toNat])
    ++ [Cmd.raw [0x1b, dir, (pyint (pymod distance 31.875 * 8)).toNat]]

/-- `Np3511d.feed_forward_mm`.  A negative distance is redirected to
`feed_backward_mm(-distance)` (whose argument is then positive, so the mutual
recursion of the source bottoms out after this single redirect and is
unfolded here); the redirected call emits backward commands and returns
`-(-distance) = distance`.  In every case the returned value is the signed
distance requested, `distance`. -/
def feed_forward_mm (distance : ℚ) : List Cmd × ℚ :=
  if distance < 0 then (feed_cmds 0x42 (-distance), distance)
  else (feed_cmds 0x4a distance, distance)

/-- `Np3511d.feed_backward_mm`.  Negative distances are redirected to
`feed_forward_mm(-distance)` (unfolded as above); the returned value is
always `-distance`. -/
def feed_backward_mm (distance : ℚ) : List Cmd × ℚ :=
  if distance < 0 then (feed_cmds 0x4a (-distance), -distance)
  else (feed_cmds 0x42 distance, -distance)

/-- The inter-block spacing computed in `button_print_callback`/`print_excel`:
`int(((alto_etiqueta - 2 * MARGIN - 6 * nro_lineas) / (nro_bloques - 1)) * 8) / 8`.
The margin is a parameter here (the source always passes the constant
`MARGIN`); `nro_lineas` and `nro_bloques` are the Python int locals.  In the
program `nro_bloques` is 3 or 5, so the divisor `nro_bloques - 1` is nonzero. -/
def separacion (alto_etiqueta margen : ℚ) (nro_lineas nro_bloques : ℕ) : ℚ :=
  ((pyint (((alto_etiqueta - 2 * margen - 6 * (nro_lineas : ℚ))
      / ((nro_bloques : ℚ) - 1)) * 8) : ℚ)) / 8

/-- The configuration commands every job emits before its label content:
reset, line-feed pitch 0, double width/height, left alignment, speed 75,
density 130, enhanced print, double strike, margins (6, 66), then the
backward alignment feed `CUTTER_OFFSET - gap/2 - MARGIN + POST_CUT_ADV`.
This is the shared prefix of `button_print_callback` and `print_excel`. -/
def setup_cmds (gap : ℚ) : List Cmd :=
  [reset, set_lf_pitch 0, set_double_width_and_height, set_alignment ("LEFT"),
   set_max_print_speed 75, set_print_density 130, set_enhanced_print_on,
   set_double_strike_on, set_margins 6 66]
  ++ (feed_backward_mm (CUTTER_OFFSET - gap / 2 - MARGIN + POST_CUT_ADV)).1

/-- The label type chosen in the option menu.  The constructors correspond to
the strings matched in `button_print_callback`: `"Ingreso Equipo"`,
`"Ingreso Golden Unit"`, `"Salida Parte"`, `"Libre"`, `"Excel"`.  The
`"Excel"` choice has no case in the `match`, so the body falls through to the
cut directly. -/
inductive LabelType where
  | ingresoEquipo
  | ingresoGoldenUnit
  | salidaParte
  | libre
  | excel
deriving DecidableEq

/-- Outcome of one `button_print_callback` invocation.

* `buf` is the `Dummy` buffer content when the function returns, just before
  `p.clear()` discards it: on the success path this is the full label
  (including the cut), on the intake validation failure path it is whatever
  had been appended up to the early `return`.
* `head` is the final value of the `head_pos` local.
* `ok` is false exactly when the early `return` in the 6-character
  validation was taken.
* `handoffs` lists the buffers passed to `print_buffer` (the print sink):
  `[buf]` on success, `[]` on the validation failure path. -/
structure Run where
  buf : List Cmd
  head : ℚ
  ok : Bool
  handoffs : List (List Cmd)
deriving DecidableEq

/-- `button_print_callback`.  Arguments: the label type and size read from
the option menus, the five entry fields (`entrada_osi`, `entrada_claim`,
`entrada_fru`, `entrada_4ta_linea`, `entrada_5ta_linea`), and `hoy`, the
string `datetime.now().strftime("%d/%m/%Y")` the two outbound branches read
from the ambient clock.  `alto_etiqueta` and `gap` are integers in the UI
({40, 49, 50} and {4, 5, 6}); they are taken as rationals here.  Buffer
appends and `head_pos` updates follow the source line by line. -/
def button_print_callback (tipo_etiqueta : LabelType) (alto_etiqueta gap : ℚ)
    (entrada_osi entrada_claim entrada_fru entrada_4ta_linea entrada_5ta_linea
      hoy : String) : Run :=
  let buf0 := setup_cmds gap
  let head0 := MARGIN + gap / 2
  match tipo_etiqueta with
  | .ingresoEquipo =>
      let nro_osi := entrada_osi
      if nro_osi.length ≠ 6 then
        { buf := buf0, head := head0, ok := false, handoffs := [] }
      else
        let sep := separacion alto_etiqueta MARGIN 5 3
        let linea := Cmd.text ((" OSI ") ++ nro_osi ++ ("\t   *") ++ nro_osi)
        let barra := Cmd.barcode (("*") ++ nro_osi ++ ("*")) ("CODE39") 3 48 ("OFF") false
        let head1 := head0 + 6 + 6 + (feed_forward_mm sep).2
          + 6 + 6 + (feed_forward_mm sep).2 + 6
        let corte := alto_etiqueta + gap - head1 + CUTTER_OFFSET + AJUSTE
        let buf1 := buf0 ++ [linea, barra] ++ (feed_forward_mm sep).1
          ++ [linea, barra] ++ (feed_forward_mm sep).1 ++ [linea]
          ++ (feed_forward_mm corte).1 ++ [full_cut]
        { buf := buf1, head := head1 + (feed_forward_mm corte).2, ok := true,
          handoffs := [buf1] }
  | .ingresoGoldenUnit =>
      let nro_osi := entrada_osi
      if nro_osi.length ≠ 6 then
        { buf := buf0, head := head0, ok := false, handoffs := [] }
      else
        let sep := separacion alto_etiqueta MARGIN 5 3
        let linea := Cmd.text (("  GU ") ++ nro_osi ++ ("\t   _") ++ nro_osi)
        -- the source omits `width`, so the escpos default width 3 applies
        let barra := Cmd.barcode (("*") ++ nro_osi ++ ("*")) ("CODE39") 3 48 ("OFF") false
        let head1 := head0 + 6 + 6 + (feed_forward_mm sep).2
          + 6 + 6 + (feed_forward_mm sep).2 + 6
        let corte := alto_etiqueta + gap - head1 + CUTTER_OFFSET + AJUSTE
        let buf1 := buf0 ++ [linea, barra] ++ (feed_forward_mm sep).1
          ++ [linea, barra] ++ (feed_forward_mm sep).1 ++ [linea]
          ++ (feed_forward_mm corte).1 ++ [full_cut]
        { buf := buf1, head := head1 + (feed_forward_mm corte).2, ok := true,
          handoffs := [buf1] }
  | .salidaParte =>
      -- the 6-character validation is commented out in the source
      let nro_osi := entrada_osi
      let sep := separacion alto_etiqueta MARGIN 5 3
      let nro_claim := entrada_claim.take 14
      let nro_fru := entrada_fru.take 14
      let head1 := head0 + 6 + (feed_forward_mm sep).2 + 6 + 6
        + (feed_forward_mm sep).2 + 6 + 6
      let corte := alto_etiqueta + gap - head1 + CUTTER_OFFSET
      let buf1 := buf0
        ++ [Cmd.text (("           ") ++ hoy ++ ("\n"))]
        ++ (feed_forward_mm sep).1
        ++ [Cmd.text ((" FRU:   ") ++ nro_fru ++ ("\n")),
            Cmd.text ((" CLAIM: ") ++ nro_claim ++ ("\n"))]
        ++ (feed_forward_mm sep).1
        ++ [Cmd.text ((" OSI:   ") ++ nro_osi ++ ("\n")),
            Cmd.barcode (("*") ++ nro_osi ++ ("*")) ("CODE39") 4 48 ("OFF") false]
        ++ (feed_forward_mm corte).1 ++ [full_cut]
      { buf := buf1, head := head1 + (feed_forward_mm corte).2, ok := true,
        handoffs := [buf1] }
  | .libre =>
      let sep := separacion alto_etiqueta MARGIN 5 5
      let lineas := [entrada_osi.take 20, entrada_claim.take 20,
        entrada_fru.take 20, entrada_4ta_linea.take 20, entrada_5ta_linea.take 20]
      -- the for-loop body: print the line (a single space if empty),
      -- advance head_pos by 6, then the spacing feed — for EVERY line
      let paso := fun (st : List Cmd × ℚ) (linea : String) =>
        (st.1 ++ [if linea.length > 0 then Cmd.text (linea ++ ("\n"))
                  else Cmd.text (" \n")]
          ++ (feed_forward_mm sep).1,
         st.2 + 6 + (feed_forward_mm sep).2)
      let blocks := lineas.foldl paso (buf0, head0)
      let corte := alto_etiqueta + gap - blocks.2 + CUTTER_OFFSET
      let buf1 := blocks.1 ++ (feed_forward_mm corte).1 ++ [full_cut]
      { buf := buf1, head := blocks.2 + (feed_forward_mm corte).2, ok := true,
        handoffs := [buf1] }
  | .excel =>
      -- no `match` case: the body falls through to the cut and the handoff
      { buf := buf0 ++ [full_cut], head := head0, ok := true,
        handoffs := [buf0 ++ [full_cut]] }

/-- `button_forward_callback`: a fresh `Dummy` printer, a 0.5 mm forward
feed, and that buffer handed directly to `print_buffer`. -/
def button_forward_callback : List Cmd :=
  (feed_forward_mm (1 / 2)).1

/-- State threaded through the `for value in df.values` loop of
`print_excel`: the (never cleared) `Dummy` buffer, `head_pos`, the list of
buffers handed to `print_buffer` so far, and the row counter `i`. -/
structure ExcelState where
  buf : List Cmd
  head : ℚ
  handoffs : List (List Cmd)
  i : ℕ
deriving DecidableEq

/-- One iteration of the `print_excel` loop for the spreadsheet row
`(nro_osi, nro_claim, nro_fru)`.  Mirrors the source: increment `i`,
recompute `separacion`, on every 5th row run `button_forward_callback`
(which sends its own small buffer to the sink), emit the
`salidaParte`-style blocks, the final feed and the cut, then pass the whole
accumulated buffer `p.output` to `print_buffer` — the buffer is **not**
cleared between rows, and `head_pos` is **not** reset. -/
def print_excel_row (alto_etiqueta gap : ℚ) (hoy : String)
    (st : ExcelState) (value : String × String × String) : ExcelState :=
  let i := st.i + 1
  let sep := separacion alto_etiqueta MARGIN 5 3
  let nro_osi := value.1
  let nro_claim := value.2.1
  let nro_fru := value.2.2
  let extra := if i % 5 = 0 then [button_forward_callback] else []
  let head1 := st.head + 6 + (feed_forward_mm sep).2 + 6 + 6
    + (feed_forward_mm sep).2 + 6 + 6
  let corte := alto_etiqueta + gap - head1 + CUTTER_OFFSET
  let buf1 := st.buf
    ++ [Cmd.text (("           ") ++ hoy ++ ("\n"))]
    ++ (feed_forward_mm sep).1
    ++ [Cmd.text ((" FRU:   ") ++ nro_fru ++ ("\n")),
        Cmd.text ((" CLAIM: ") ++ nro_claim ++ ("\n"))]
    ++ (feed_forward_mm sep).1
    ++ [Cmd.text ((" OSI:   ") ++ nro_osi ++ ("\n")),
        Cmd.barcode (("*") ++ nro_osi ++ ("*")) ("CODE39") 4 48 ("OFF") false]
    ++ (feed_forward_mm corte).1 ++ [full_cut]
  { buf := buf1, head := head1 + (feed_forward_mm corte).2,
    handoffs := st.handoffs ++ extra ++ [buf1], i := i }

/-- `print_excel`: the same setup as `button_print_callback`, `head_pos`
initialized once to `MARGIN + gap/2`, then the per-row loop.  `rows` is the
sequence of `(str(value[0]), str(value[1]), str(value[2]))` triples read
from the spreadsheet; `hoy` is the formatted current date. -/
def print_excel (alto_etiqueta gap : ℚ) (hoy : String)
    (rows : List (String × String × String)) : ExcelState :=
  rows.foldl (print_excel_row alto_etiqueta gap hoy)
    { buf := setup_cmds gap, head := MARGIN + gap / 2, handoffs := [], i := 0 }

/-- Whether a command is a `p.text(...)` emission. -/
def is_text_cmd : Cmd → Bool
  | Cmd.text _ => true
  | _ => false

/-- Whether a command is a `p.barcode(...)` emission. -/
def is_barcode_cmd : Cmd → Bool
  | Cmd.barcode _ _ _ _ _ _ => true
  | _ => false

/-- Number of occurrences of the command `a` in a buffer. -/
def count_cmd (a : Cmd) (l : List Cmd) : ℕ :=
  l.countP (fun c => decide (c = a))

/-- Whether a command is the full-cut command `ESC i`. -/
def is_cut_cmd (c : Cmd) : Bool :=
  match c with
  | Cmd.raw bs => bs == [0x1b, 0x69]
  | _ => false

/-! ### Helper lemmas -/

theorem feed_forward_snd (d : ℚ) : (feed_forward_mm d).2 = d := by
  unfold feed_forward_mm; split <;> rfl

theorem feed_backward_snd (d : ℚ) : (feed_backward_mm d).2 = -d := by
  unfold feed_backward_mm; split <;> rfl

theorem pyint_of_nonneg {q : ℚ} (h : 0 ≤ q) : pyint q = ⌊q⌋ := by
  unfold pyint; rw [if_neg (not_lt.mpr h)]

theorem pymod_eq_mul_fract (a : ℚ) {b : ℚ} (hb : b ≠ 0) :
    pymod a b = b * Int.fract (a / b) := by
  unfold pymod
  rw [Int.fract, mul_sub, mul_div_cancel₀ _ hb]

theorem pymod_nonneg (a : ℚ) {b : ℚ} (hb : 0 < b) : 0 ≤ pymod a b := by
  rw [pymod_eq_mul_fract a hb.ne']
  exact mul_nonneg hb.le (Int.fract_nonneg _)

theorem pymod_lt (a : ℚ) {b : ℚ} (hb : 0 < b) : pymod a b < b := by
  rw [pymod_eq_mul_fract a hb.ne']
  calc b * Int.fract (a / b) < b * 1 :=
        mul_lt_mul_of_pos_left (Int.fract_lt_one _) hb
    _ = b := mul_one b

theorem pyint_of_neg {q : ℚ} (h : q < 0) : pyint q = ⌈q⌉ := by
  unfold pyint; rw [if_pos h]

theorem pyint_eq {q : ℚ} (z : ℤ) (h0 : 0 ≤ q) (h1 : (z : ℚ) ≤ q) (h2 : q < z + 1) :
    pyint q = z := by
  rw [pyint_of_nonneg h0]
  exact Int.floor_eq_iff.mpr ⟨by exact_mod_cast h1, by exact_mod_cast h2⟩

theorem pyint_eq_neg {q : ℚ} (z : ℤ) (hq : q < 0) (h1 : (z : ℚ) - 1 < q) (h2 : q ≤ z) :
    pyint q = z := by
  rw [pyint_of_neg hq]
  exact Int.ceil_eq_iff.mpr ⟨by exact_mod_cast h1, by exact_mod_cast h2⟩

theorem full_step_byte : (pyint ((31.875 : ℚ) * 8)).toNat = 255 := by
  rw [pyint_eq 255 (by norm_num) (by norm_num) (by norm_num)]
  rfl

theorem remainder_steps_le (d : ℚ) : (pyint (pymod d 31.875 * 8)).toNat ≤ 254 := by
  have hb : (0 : ℚ) < 31.875 := by norm_num
  have h0 : 0 ≤ pymod d 31.875 := pymod_nonneg d hb
  have h1 : pymod d 31.875 < 31.875 := pymod_lt d hb
  have h2 : pymod d 31.875 * 8 < ((255 : ℤ) : ℚ) := by push_cast; nlinarith
  rw [pyint_of_nonneg (by positivity)]
  have h3 : ⌊pymod d 31.875 * 8⌋ < 255 := Int.floor_lt.mpr h2
  omega

theorem feed_cmds_eq (dir : ℕ) (e : ℚ) :
    feed_cmds dir e
      = List.replicate (pyint (e / 31.875)).toNat (Cmd.raw [0x1b, dir, 255])
        ++ [Cmd.raw [0x1b, dir, (pyint (pymod e 31.875 * 8)).toNat]] := by
  unfold feed_cmds; rw [full_step_byte]

theorem countP_replicate_false {α : Type} (p : α → Bool) (a : α) (h : p a = false) :
    ∀ k, (List.replicate k a).countP p = 0
  | 0 => rfl
  | k + 1 => by
      simp [List.replicate_succ, List.countP_cons, h, countP_replicate_false p a h k]

theorem filter_replicate_false {α : Type} (p : α → Bool) (a : α) (h : p a = false) :
    ∀ k, (List.replicate k a).filter p = []
  | 0 => rfl
  | k + 1 => by
      simp [List.replicate_succ, List.filter_cons, h, filter_replicate_false p a h k]

theorem countP_feed_cmds (p : Cmd → Bool) (dir : ℕ) (e : ℚ)
    (h : ∀ n, p (Cmd.raw [0x1b, dir, n]) = false) :
    (feed_cmds dir e).countP p = 0 := by
  rw [feed_cmds_eq, List.countP_append, countP_replicate_false _ _ (h 255)]
  simp [List.countP_cons, h _]

theorem filter_feed_cmds (p : Cmd → Bool) (dir : ℕ) (e : ℚ)
    (h : ∀ n, p (Cmd.raw [0x1b, dir, n]) = false) :
    (feed_cmds dir e).filter p = [] := by
  rw [feed_cmds_eq, List.filter_append, filter_replicate_false _ _ (h 255)]
  simp [List.filter_cons, h _]

theorem countP_feed_forward (p : Cmd → Bool) (d : ℚ)
    (h74 : ∀ n, p (Cmd.raw [0x1b, 0x4a, n]) = false)
    (h66 : ∀ n, p (Cmd.raw [0x1b, 0x42, n]) = false) :
    ((feed_forward_mm d).1).countP p = 0 := by
  unfold feed_forward_mm
  split <;> simp only [countP_feed_cmds p _ _ h74, countP_feed_cmds p _ _ h66]

theorem countP_feed_backward (p : Cmd → Bool) (d : ℚ)
    (h74 : ∀ n, p (Cmd.raw [0x1b, 0x4a, n]) = false)
    (h66 : ∀ n, p (Cmd.raw [0x1b, 0x42, n]) = false) :
    ((feed_backward_mm d).1).countP p = 0 := by
  unfold feed_backward_mm
  split <;> simp only [countP_feed_cmds p _ _ h74, countP_feed_cmds p _ _ h66]

theorem filter_feed_forward (p : Cmd → Bool) (d : ℚ)
    (h74 : ∀ n, p (Cmd.raw [0x1b, 0x4a, n]) = false)
    (h66 : ∀ n, p (Cmd.raw [0x1b, 0x42, n]) = false) :
    ((feed_forward_mm d).1).filter p = [] := by
  unfold feed_forward_mm
  split <;> simp only [filter_feed_cmds p _ _ h74, filter_feed_cmds p _ _ h66]

theorem filter_feed_backward (p : Cmd → Bool) (d : ℚ)
    (h74 : ∀ n, p (Cmd.raw [0x1b, 0x4a, n]) = false)
    (h66 : ∀ n, p (Cmd.raw [0x1b, 0x42, n]) = false) :
    ((feed_backward_mm d).1).filter p = [] := by
  unfold feed_backward_mm
  split <;> simp only [filter_feed_cmds p _ _ h74, filter_feed_cmds p _ _ h66]

@[simp] theorem is_text_cmd_raw (bs : List ℕ) : is_text_cmd (Cmd.raw bs) = false := rfl

@[simp] theorem is_text_cmd_text (s : String) : is_text_cmd (Cmd.text s) = true := rfl

@[simp] theorem is_text_cmd_barcode (c b : String) (w h : ℕ) (p : String) (a : Bool) :
    is_text_cmd (Cmd.barcode c b w h p a) = false := rfl

@[simp] theorem is_text_cmd_full_cut : is_text_cmd full_cut = false := rfl

@[simp] theorem is_barcode_cmd_full_cut : is_barcode_cmd full_cut = false := rfl

@[simp] theorem is_barcode_cmd_raw (bs : List ℕ) : is_barcode_cmd (Cmd.raw bs) = false := rfl

@[simp] theorem is_barcode_cmd_text (s : String) : is_barcode_cmd (Cmd.text s) = false := rfl

@[simp] theorem is_barcode_cmd_barcode (c b : String) (w h : ℕ) (p : String) (a : Bool) :
    is_barcode_cmd (Cmd.barcode c b w h p a) = true := rfl

@[simp] theorem filter_text_feed_forward (d : ℚ) :
    ((feed_forward_mm d).1).filter is_text_cmd = [] :=
  filter_feed_forward _ d (fun _ => rfl) (fun _ => rfl)

@[simp] theorem filter_text_feed_backward (d : ℚ) :
    ((feed_backward_mm d).1).filter is_text_cmd = [] :=
  filter_feed_backward _ d (fun _ => rfl) (fun _ => rfl)

@[simp] theorem filter_barcode_feed_forward (d : ℚ) :
    ((feed_forward_mm d).1).filter is_barcode_cmd = [] :=
  filter_feed_forward _ d (fun _ => rfl) (fun _ => rfl)

@[simp] theorem filter_barcode_feed_backward (d : ℚ) :
    ((feed_backward_mm d).1).filter is_barcode_cmd = [] :=
  filter_feed_backward _ d (fun _ => rfl) (fun _ => rfl)

@[simp] theorem countP_text_feed_forward (d : ℚ) :
    ((feed_forward_mm d).1).countP is_text_cmd = 0 :=
  countP_feed_forward _ d (fun _ => rfl) (fun _ => rfl)

@[simp] theorem countP_text_feed_backward (d : ℚ) :
    ((feed_backward_mm d).1).countP is_text_cmd = 0 :=
  countP_feed_backward _ d (fun _ => rfl) (fun _ => rfl)

@[simp] theorem countP_barcode_feed_forward (d : ℚ) :
    ((feed_forward_mm d).1).countP is_barcode_cmd = 0 :=
  countP_feed_forward _ d (fun _ => rfl) (fun _ => rfl)

@[simp] theorem countP_barcode_feed_backward (d : ℚ) :
    ((feed_backward_mm d).1).countP is_barcode_cmd = 0 :=
  countP_feed_backward _ d (fun _ => rfl) (fun _ => rfl)

@[simp] theorem is_cut_cmd_full_cut : is_cut_cmd full_cut = true := rfl

@[simp] theorem is_cut_cmd_text (s : String) : is_cut_cmd (Cmd.text s) = false := rfl

@[simp] theorem is_cut_cmd_barcode (c b : String) (w h : ℕ) (p : String) (a : Bool) :
    is_cut_cmd (Cmd.barcode c b w h p a) = false := rfl

@[simp] theorem countP_cut_feed_forward (d : ℚ) :
    ((feed_forward_mm d).1).countP is_cut_cmd = 0 :=
  countP_feed_forward _ d (fun _ => rfl) (fun _ => rfl)

@[simp] theorem countP_cut_feed_backward (d : ℚ) :
    ((feed_backward_mm d).1).countP is_cut_cmd = 0 :=
  countP_feed_backward _ d (fun _ => rfl) (fun _ => rfl)

@[simp] theorem countP_cut_setup (gap : ℚ) : (setup_cmds gap).countP is_cut_cmd = 0 := by
  simp [setup_cmds, reset, set_lf_pitch, set_double_width_and_height, set_alignment,
    set_max_print_speed, set_print_density, set_enhanced_print_on, set_double_strike_on,
    set_margins, List.countP_cons, List.countP_append, is_cut_cmd]

@[simp] theorem countP_text_setup (gap : ℚ) : (setup_cmds gap).countP is_text_cmd = 0 := by
  simp [setup_cmds, reset, set_lf_pitch, set_double_width_and_height, set_alignment,
    set_max_print_speed, set_print_density, set_enhanced_print_on, set_double_strike_on,
    set_margins, List.countP_cons, List.countP_append]

@[simp] theorem countP_barcode_setup (gap : ℚ) :
    (setup_cmds gap).countP is_barcode_cmd = 0 := by
  simp [setup_cmds, reset, set_lf_pitch, set_double_width_and_height, set_alignment,
    set_max_print_speed, set_print_density, set_enhanced_print_on, set_double_strike_on,
    set_margins, List.countP_cons, List.countP_append]

@[simp] theorem filter_text_setup (gap : ℚ) : (setup_cmds gap).filter is_text_cmd = [] := by
  simp [setup_cmds, reset, set_lf_pitch, set_double_width_and_height, set_alignment,
    set_max_print_speed, set_print_density, set_enhanced_print_on, set_double_strike_on,
    set_margins, List.filter_cons, List.filter_append]

@[simp] theorem filter_barcode_setup (gap : ℚ) :
    (setup_cmds gap).filter is_barcode_cmd = [] := by
  simp [setup_cmds, reset, set_lf_pitch, set_double_width_and_height, set_alignment,
    set_max_print_speed, set_print_density, set_enhanced_print_on, set_double_strike_on,
    set_margins, List.filter_cons, List.filter_append]

/-- Evaluate a forward feed of a sub-maximal distance: a single remainder
command of `toNat n` steps, where `n` brackets `d * 8`. -/
theorem feed_forward_small {d : ℚ} (n : ℤ) (h0 : 0 ≤ d) (h1 : d < 31.875)
    (hn1 : (n : ℚ) ≤ d * 8) (hn2 : d * 8 < n + 1) :
    (feed_forward_mm d).1 = [Cmd.raw [0x1b, 0x4a, n.toNat]] := by
  have hfloor : pyint (d / 31.875) = 0 := by
    apply pyint_eq 0 (by positivity) (by positivity)
    push_cast
    rw [div_lt_iff₀ (by norm_num : (0:ℚ) < 31.875)]
    linarith
  have hmod : pymod d 31.875 = d := by
    unfold pymod
    have : ⌊d / 31.875⌋ = 0 := by
      have := hfloor
      rwa [pyint_of_nonneg (by positivity)] at this
    rw [this]
    push_cast
    ring
  rw [feed_forward_mm, if_neg (not_lt.mpr h0), feed_cmds_eq, hfloor, hmod,
    pyint_eq n (by linarith) hn1 hn2]
  rfl

/-- Evaluate a backward feed of a sub-maximal distance. -/
theorem feed_backward_small {d : ℚ} (n : ℤ) (h0 : 0 ≤ d) (h1 : d < 31.875)
    (hn1 : (n : ℚ) ≤ d * 8) (hn2 : d * 8 < n + 1) :
    (feed_backward_mm d).1 = [Cmd.raw [0x1b, 0x42, n.toNat]] := by
  have hfloor : pyint (d / 31.875) = 0 := by
    apply pyint_eq 0 (by positivity) (by positivity)
    push_cast
    rw [div_lt_iff₀ (by norm_num : (0:ℚ) < 31.875)]
    linarith
  have hmod : pymod d 31.875 = d := by
    unfold pymod
    have : ⌊d / 31.875⌋ = 0 := by
      have := hfloor
      rwa [pyint_of_nonneg (by positivity)] at this
    rw [this]
    push_cast
    ring
  rw [feed_backward_mm, if_neg (not_lt.mpr h0), feed_cmds_eq, hfloor, hmod,
    pyint_eq n (by linarith) hn1 hn2]
  rfl

theorem sep_50_5_eq : separacion 50 MARGIN 5 5 = 3 := by
  have harg : ((50 : ℚ) - 2 * MARGIN - 6 * ((5 : ℕ) : ℚ)) / (((5 : ℕ) : ℚ) - 1) * 8
      = 24 := by
    norm_num [MARGIN]
  unfold separacion
  rw [harg, pyint_eq 24 (by norm_num) (by norm_num) (by norm_num)]
  norm_num

theorem sep_50_3_eq : separacion 50 MARGIN 5 3 = 6 := by
  have harg : ((50 : ℚ) - 2 * MARGIN - 6 * ((5 : ℕ) : ℚ)) / (((3 : ℕ) : ℚ) - 1) * 8
      = 48 := by
    norm_num [MARGIN]
  unfold separacion
  rw [harg, pyint_eq 48 (by norm_num) (by norm_num) (by norm_num)]
  norm_num

theorem feed3_eq : (feed_forward_mm 3).1 = [Cmd.raw [0x1b, 0x4a, 24]] := by
  rw [feed_forward_small 24 (by norm_num) (by norm_num) (by norm_num) (by norm_num)]
  rfl

theorem feed6_eq : (feed_forward_mm 6).1 = [Cmd.raw [0x1b, 0x4a, 48]] := by
  rw [feed_forward_small 48 (by norm_num) (by norm_num) (by norm_num) (by norm_num)]
  rfl

theorem feed13_eq : (feed_forward_mm 13).1 = [Cmd.raw [0x1b, 0x4a, 104]] := by
  rw [feed_forward_small 104 (by norm_num) (by norm_num) (by norm_num) (by norm_num)]
  rfl

theorem feed22_eq : (feed_forward_mm 22).1 = [Cmd.raw [0x1b, 0x4a, 176]] := by
  rw [feed_forward_small 176 (by norm_num) (by norm_num) (by norm_num) (by norm_num)]
  rfl

theorem feedback5_eq : (feed_backward_mm 5).1 = [Cmd.raw [0x1b, 0x42, 40]] := by
  rw [feed_backward_small 40 (by norm_num) (by norm_num) (by norm_num) (by norm_num)]
  rfl

theorem setup_cmds_5_eq :
    setup_cmds 5
      = [reset, set_lf_pitch 0, set_double_width_and_height, set_alignment ("LEFT"),
         set_max_print_speed 75, set_print_density 130, set_enhanced_print_on,
         set_double_strike_on, set_margins 6 66, Cmd.raw [0x1b, 0x42, 40]] := by
  unfold setup_cmds
  rw [show CUTTER_OFFSET - 5 / 2 - MARGIN + POST_CUT_ADV = (5 : ℚ) by
    norm_num [CUTTER_OFFSET, MARGIN, POST_CUT_ADV]]
  rw [feedback5_eq]
  rfl

@[simp] theorem decide_text_eq_raw (s : String) (bs : List ℕ) :
    decide (Cmd.text s = Cmd.raw bs) = false := by
  rw [decide_eq_false_iff_not]
  simp

@[simp] theorem decide_barcode_eq_raw (c b : String) (w h : ℕ) (p : String) (a : Bool)
    (bs : List ℕ) : decide (Cmd.barcode c b w h p a = Cmd.raw bs) = false := by
  rw [decide_eq_false_iff_not]
  simp

@[simp] theorem decide_ite_text_eq_raw (c : Prop) [Decidable c] (s t : String)
    (bs : List ℕ) :
    decide ((if c then Cmd.text s else Cmd.text t) = Cmd.raw bs) = false := by
  split
  · exact decide_text_eq_raw s bs
  · exact decide_text_eq_raw t bs

/-! ### Claim theorems -/

/-- Claim C1, counterexample.  The claim says the remainder feed command
encodes `round(8 * (d mod 31.875))` steps.  At `d = 0.7` mm the code emits
`int(0.7 * 8) = int(5.6) = 5` steps (truncation), while
`round(8 * (0.7 mod 31.875)) = round(5.6) = 6`: the claim is false as
stated — the source truncates, it does not round. -/
theorem feed_remainder_not_round_cex :
    (feed_forward_mm (7 / 10)).1 = [Cmd.raw [0x1b, 0x4a, 5]]
      ∧ round ((8 : ℚ) * pymod (7 / 10) 31.875) = 6
      ∧ (5 : ℤ) ≠ 6 := by
  refine ⟨?_, ?_, by decide⟩
  · rw [feed_forward_small 5 (by norm_num) (by norm_num) (by norm_num) (by norm_num)]
    rfl
  · have hmod : pymod (7 / 10 : ℚ) 31.875 = 7 / 10 := by
      unfold pymod
      rw [show ⌊(7 / 10 : ℚ) / 31.875⌋ = 0 from Int.floor_eq_iff.mpr (by norm_num)]
      push_cast
      ring
    rw [hmod, round_eq]
    exact Int.floor_eq_iff.mpr (by norm_num)

/-- Claim C1 (amended: the remainder step count is the truncation
`floor(8 * (d mod 31.875))`, not the rounding).  For every requested
distance `d ≥ 0`, `feed_forward_mm` appends exactly `⌊d / 31.875⌋` maximal
full-step commands (255 steps each) followed by exactly one remainder
command of `⌊8 * (d mod 31.875)⌋` steps, and returns `d`;
`feed_backward_mm` emits the same decomposition with the backward direction
byte and returns `-d`. -/
theorem feed_decompose_trunc (d : ℚ) (h : 0 ≤ d) :
    (feed_forward_mm d).1
        = List.replicate (⌊d / 31.875⌋).toNat (Cmd.raw [0x1b, 0x4a, 255])
          ++ [Cmd.raw [0x1b, 0x4a, (⌊8 * pymod d 31.875⌋).toNat]]
      ∧ (feed_forward_mm d).2 = d
      ∧ (feed_backward_mm d).1
        = List.replicate (⌊d / 31.875⌋).toNat (Cmd.raw [0x1b, 0x42, 255])
          ++ [Cmd.raw [0x1b, 0x42, (⌊8 * pymod d 31.875⌋).toNat]]
      ∧ (feed_backward_mm d).2 = -d := by
  have hnlt : ¬ d < 0 := not_lt.mpr h
  have hdiv : (0 : ℚ) ≤ d / 31.875 := by positivity
  have hmod : (0 : ℚ) ≤ pymod d 31.875 * 8 :=
    mul_nonneg (pymod_nonneg d (by norm_num)) (by norm_num)
  have hcomm : pymod d 31.875 * 8 = 8 * pymod d 31.875 := mul_comm _ _
  refine ⟨?_, feed_forward_snd d, ?_, feed_backward_snd d⟩
  · rw [feed_forward_mm, if_neg hnlt, feed_cmds_eq, pyint_of_nonneg hdiv,
      pyint_of_nonneg hmod, hcomm]
  · rw [feed_backward_mm, if_neg hnlt, feed_cmds_eq, pyint_of_nonneg hdiv,
      pyint_of_nonneg hmod, hcomm]

/-- Witness for `feed_decompose_trunc` at `d = 3` mm. -/
theorem feed_decompose_trunc_witness :
    (0 : ℚ) ≤ 3
      ∧ ((feed_forward_mm 3).1
          = List.replicate (⌊(3 : ℚ) / 31.875⌋).toNat (Cmd.raw [0x1b, 0x4a, 255])
            ++ [Cmd.raw [0x1b, 0x4a, (⌊8 * pymod 3 31.875⌋).toNat]]
        ∧ (feed_forward_mm 3).2 = 3
        ∧ (feed_backward_mm 3).1
          = List.replicate (⌊(3 : ℚ) / 31.875⌋).toNat (Cmd.raw [0x1b, 0x42, 255])
            ++ [Cmd.raw [0x1b, 0x42, (⌊8 * pymod 3 31.875⌋).toNat]]
        ∧ (feed_backward_mm 3).2 = -3) :=
  ⟨by norm_num, feed_decompose_trunc 3 (by norm_num)⟩

/-- Claim C10.  For every rational distance `d` (positive, zero or
negative), both feed functions are total and produce a flat command list —
some number of full-step commands of exactly 255 steps followed by exactly
one remainder command of at most 254 steps, all with the same direction
byte (`0x4A` forward / `0x42` backward), so every value handed to the
single-byte encoding `bytes([...])` lies in `0..255` and the mutual
recursion redirects at most once. -/
theorem feed_commands_byte_safe (d : ℚ) :
    (∃ dir k n, (dir = 0x4a ∨ dir = 0x42) ∧ n ≤ 254
        ∧ (feed_forward_mm d).1
          = List.replicate k (Cmd.raw [0x1b, dir, 255]) ++ [Cmd.raw [0x1b, dir, n]])
      ∧ (∃ dir k n, (dir = 0x4a ∨ dir = 0x42) ∧ n ≤ 254
        ∧ (feed_backward_mm d).1
          = List.replicate k (Cmd.raw [0x1b, dir, 255]) ++ [Cmd.raw [0x1b, dir, n]]) := by
  constructor
  · by_cases hd : d < 0
    · refine ⟨0x42, (pyint (-d / 31.875)).toNat, (pyint (pymod (-d) 31.875 * 8)).toNat,
        Or.inr rfl, remainder_steps_le (-d), ?_⟩
      rw [feed_forward_mm, if_pos hd, feed_cmds_eq]
    · refine ⟨0x4a, (pyint (d / 31.875)).toNat, (pyint (pymod d 31.875 * 8)).toNat,
        Or.inl rfl, remainder_steps_le d, ?_⟩
      rw [feed_forward_mm, if_neg hd, feed_cmds_eq]
  · by_cases hd : d < 0
    · refine ⟨0x4a, (pyint (-d / 31.875)).toNat, (pyint (pymod (-d) 31.875 * 8)).toNat,
        Or.inl rfl, remainder_steps_le (-d), ?_⟩
      rw [feed_backward_mm, if_pos hd, feed_cmds_eq]
    · refine ⟨0x42, (pyint (d / 31.875)).toNat, (pyint (pymod d 31.875 * 8)).toNat,
        Or.inr rfl, remainder_steps_le d, ?_⟩
      rw [feed_backward_mm, if_neg hd, feed_cmds_eq]

/-- Claim C8, counterexample.  The claim says the spacing equals
`floor(((H - 2M - 6L) / (B-1)) * 8) / 8` for every height, margin, line and
block count.  Python `int()` truncates toward zero, so for a negative
numerator the two differ: at `H = 37, M = 4, L = 5, B = 4` the code
computes `int(-8/3)/8 = -2/8 = -1/4`, while the floor formula gives
`⌊-8/3⌋/8 = -3/8`. -/
theorem spacing_trunc_vs_floor_cex :
    separacion 37 4 5 4 = -1 / 4
      ∧ ((⌊(((37 : ℚ) - 2 * 4 - 6 * ((5 : ℕ) : ℚ)) / (((4 : ℕ) : ℚ) - 1)) * 8⌋ : ℚ) / 8
          = -3 / 8)
      ∧ (-1 / 4 : ℚ) ≠ -3 / 8 := by
  have harg : (((37 : ℚ) - 2 * 4 - 6 * ((5 : ℕ) : ℚ)) / (((4 : ℕ) : ℚ) - 1)) * 8
      = -8 / 3 := by
    push_cast
    norm_num
  refine ⟨?_, ?_, by norm_num⟩
  · unfold separacion
    rw [harg, pyint_eq_neg (-2) (by norm_num) (by norm_num) (by norm_num)]
    norm_num
  · rw [harg, show ⌊(-8 / 3 : ℚ)⌋ = -3 from Int.floor_eq_iff.mpr (by norm_num)]
    norm_num

/-- Claim C8 (amended: restricted to non-degenerate geometry
`2M + 6L ≤ H`; in that regime the numerator is non-negative and Python
`int()` agrees with `floor`).  For every label height `H`, margin `M`,
lines-per-block `L` and block count `B ≥ 2`, the computed inter-block
spacing equals `floor(((H - 2M - 6L) / (B-1)) * 8) / 8` millimetres. -/
theorem spacing_floor_when_nonneg (alto margen : ℚ) (L B : ℕ)
    (hB : 2 ≤ B) (hgeom : 2 * margen + 6 * (L : ℚ) ≤ alto) :
    separacion alto margen L B
      = ((⌊((alto - 2 * margen - 6 * (L : ℚ)) / ((B : ℚ) - 1)) * 8⌋ : ℚ)) / 8 := by
  have hden : (0 : ℚ) < (B : ℚ) - 1 := by
    have h2 : (2 : ℚ) ≤ (B : ℚ) := by exact_mod_cast hB
    linarith
  have hnum : (0 : ℚ) ≤ alto - 2 * margen - 6 * (L : ℚ) := by linarith
  have hq : (0 : ℚ) ≤ ((alto - 2 * margen - 6 * (L : ℚ)) / ((B : ℚ) - 1)) * 8 :=
    mul_nonneg (div_nonneg hnum hden.le) (by norm_num)
  unfold separacion
  rw [pyint_of_nonneg hq]

/-- Witness for `spacing_floor_when_nonneg` at the default geometry
`H = 50, M = 4, L = 5, B = 3` (spacing 6 mm). -/
theorem spacing_floor_when_nonneg_witness :
    2 ≤ 3
      ∧ 2 * (4 : ℚ) + 6 * ((5 : ℕ) : ℚ) ≤ 50
      ∧ separacion 50 4 5 3
        = ((⌊(((50 : ℚ) - 2 * 4 - 6 * ((5 : ℕ) : ℚ)) / (((3 : ℕ) : ℚ) - 1)) * 8⌋ : ℚ)) / 8 :=
  ⟨by norm_num, by push_cast; norm_num,
    spacing_floor_when_nonneg 50 4 5 3 (by norm_num) (by push_cast; norm_num)⟩

/-- Claim C2.  For every job, the final feed before the cut requests
`labelHeight + gap - headPosition + cutterOffset`, with `AJUSTE` added for
the two intake variants only, so the tracked head position ends at exactly
`labelHeight + gap + cutterOffset (+ AJUSTE)` — whatever the geometry and
text inputs. -/
theorem final_feed_lands_cutter (alto gap : ℚ) (osi claim fru l4 l5 hoy : String)
    (h : osi.length = 6) :
    (button_print_callback .ingresoEquipo alto gap osi claim fru l4 l5 hoy).head
        = alto + gap + CUTTER_OFFSET + AJUSTE
      ∧ (button_print_callback .ingresoGoldenUnit alto gap osi claim fru l4 l5 hoy).head
        = alto + gap + CUTTER_OFFSET + AJUSTE
      ∧ (button_print_callback .salidaParte alto gap osi claim fru l4 l5 hoy).head
        = alto + gap + CUTTER_OFFSET
      ∧ (button_print_callback .libre alto gap osi claim fru l4 l5 hoy).head
        = alto + gap + CUTTER_OFFSET := by
  refine ⟨?_, ?_, ?_, ?_⟩ <;>
    simp [button_print_callback, h, feed_forward_snd, List.foldl] <;>
    ring

/-- Witness for `final_feed_lands_cutter` at height 50, gap 5,
identifier `"123456"`. -/
theorem final_feed_lands_cutter_witness :
    ("123456").length = 6
      ∧ ((button_print_callback .ingresoEquipo 50 5 ("123456") ("c") ("f") ("4") ("5")
            ("01/01/2025")).head = 50 + 5 + CUTTER_OFFSET + AJUSTE
        ∧ (button_print_callback .ingresoGoldenUnit 50 5 ("123456") ("c") ("f") ("4") ("5")
            ("01/01/2025")).head = 50 + 5 + CUTTER_OFFSET + AJUSTE
        ∧ (button_print_callback .salidaParte 50 5 ("123456") ("c") ("f") ("4") ("5")
            ("01/01/2025")).head = 50 + 5 + CUTTER_OFFSET
        ∧ (button_print_callback .libre 50 5 ("123456") ("c") ("f") ("4") ("5")
            ("01/01/2025")).head = 50 + 5 + CUTTER_OFFSET) :=
  ⟨rfl, final_feed_lands_cutter 50 5 ("123456") ("c") ("f") ("4") ("5") ("01/01/2025") rfl⟩

/-- Claim C3 is right about the intent but the code violates it:
`print_excel` initializes `head_pos` to `MARGIN + gap/2` once, *before* the
row loop, and never resets it inside the loop.  With the default geometry
(height 50, gap 5), after the first row `head_pos` is
`50 + 5 + CUTTER_OFFSET = 64.5` — and since `print_excel` over `r :: rest`
folds the remaining rows starting from exactly this state, `64.5` (not
`MARGIN + gap/2 = 6.5`) is the head position immediately before the second
row's first block, whatever the row contents and date are.  The final feed
of every later row is consequently computed from a stale head position. -/
theorem excel_head_not_reset_between_rows (hoy : String) (row : String × String × String) :
    (print_excel 50 5 hoy [row]).head = 50 + 5 + CUTTER_OFFSET
      ∧ (50 + 5 + CUTTER_OFFSET : ℚ) ≠ MARGIN + 5 / 2 := by
  constructor
  · simp [print_excel, print_excel_row, feed_forward_snd]
    ring
  · norm_num [CUTTER_OFFSET, MARGIN]

/-- Claim C4 is right about the intent but the code violates it: the
`Dummy` buffer is never cleared between the rows of `print_excel`, and
`p.output` returns the whole accumulated buffer, so the second
`print_buffer` call re-sends every byte of the first row.  Counting cut
commands: the two handoffs contain 1 and 2 cut commands respectively
(3 cuts delivered to the sink in total), while only 2 cut commands were
ever appended to the buffer — the first row's bytes are transmitted
twice. -/
theorem excel_buffer_resent_across_rows (hoy : String)
    (r1 r2 : String × String × String) :
    ((print_excel 50 5 hoy [r1, r2]).handoffs.map (List.countP is_cut_cmd)) = [1, 2]
      ∧ (print_excel 50 5 hoy [r1, r2]).buf.countP is_cut_cmd = 2 := by
  constructor <;>
    simp [print_excel, print_excel_row, button_forward_callback,
      List.countP_append, List.countP_cons]

/-- Claim C7, counterexample.  With the 5-character identifier `"12345"`
the EquipmentIntake job does abort, but *not* "before any byte enters the
CommandBuffer": at the moment of the early return the buffer already holds
the configuration commands and the backward alignment feed emitted before
the length check. -/
theorem intake_abort_nonempty_buffer_cex :
    (button_print_callback .ingresoEquipo 50 5 ("12345") ("") ("") ("") ("")
        ("01/01/2025")).ok = false
      ∧ (button_print_callback .ingresoEquipo 50 5 ("12345") ("") ("") ("") ("")
        ("01/01/2025")).buf ≠ [] := by
  have h : ("12345").length ≠ 6 := by decide
  constructor
  · simp [button_print_callback, h]
  · simp [button_print_callback, h, setup_cmds]

/-- Claim C7 (amended: the job aborts before any *label-content* byte — any
text, barcode or cut — enters the buffer; the buffer at the abort holds
exactly the configuration and alignment-feed commands, which are then
discarded by `p.clear()`, and the print sink is never invoked).  Holds for
both intake variants and every identifier whose length differs from 6. -/
theorem intake_abort_discards_config_only (alto gap : ℚ)
    (osi claim fru l4 l5 hoy : String) (h : osi.length ≠ 6) :
    ((button_print_callback .ingresoEquipo alto gap osi claim fru l4 l5 hoy).ok = false
      ∧ (button_print_callback .ingresoEquipo alto gap osi claim fru l4 l5 hoy).handoffs = []
      ∧ (button_print_callback .ingresoEquipo alto gap osi claim fru l4 l5 hoy).buf
        = setup_cmds gap)
    ∧ ((button_print_callback .ingresoGoldenUnit alto gap osi claim fru l4 l5 hoy).ok = false
      ∧ (button_print_callback .ingresoGoldenUnit alto gap osi claim fru l4 l5 hoy).handoffs = []
      ∧ (button_print_callback .ingresoGoldenUnit alto gap osi claim fru l4 l5 hoy).buf
        = setup_cmds gap)
    ∧ (setup_cmds gap).countP is_text_cmd = 0
    ∧ (setup_cmds gap).countP is_barcode_cmd = 0
    ∧ (setup_cmds gap).countP is_cut_cmd = 0 := by
  refine ⟨⟨?_, ?_, ?_⟩, ⟨?_, ?_, ?_⟩, countP_text_setup gap, countP_barcode_setup gap,
      countP_cut_setup gap⟩ <;>
    simp [button_print_callback, h]

/-- Witness for `intake_abort_discards_config_only` at the 5-character
identifier `"12345"`, height 50, gap 5. -/
theorem intake_abort_discards_config_only_witness :
    ("12345").length ≠ 6
      ∧ (((button_print_callback .ingresoEquipo 50 5 ("12345") ("c") ("f") ("4") ("5")
            ("01/01/2025")).ok = false
        ∧ (button_print_callback .ingresoEquipo 50 5 ("12345") ("c") ("f") ("4") ("5")
            ("01/01/2025")).handoffs = []
        ∧ (button_print_callback .ingresoEquipo 50 5 ("12345") ("c") ("f") ("4") ("5")
            ("01/01/2025")).buf = setup_cmds 5)
      ∧ ((button_print_callback .ingresoGoldenUnit 50 5 ("12345") ("c") ("f") ("4") ("5")
            ("01/01/2025")).ok = false
        ∧ (button_print_callback .ingresoGoldenUnit 50 5 ("12345") ("c") ("f") ("4") ("5")
            ("01/01/2025")).handoffs = []
        ∧ (button_print_callback .ingresoGoldenUnit 50 5 ("12345") ("c") ("f") ("4") ("5")
            ("01/01/2025")).buf = setup_cmds 5)
      ∧ (setup_cmds 5).countP is_text_cmd = 0
      ∧ (setup_cmds 5).countP is_barcode_cmd = 0
      ∧ (setup_cmds 5).countP is_cut_cmd = 0) :=
  ⟨by decide, intake_abort_discards_config_only 50 5 ("12345") ("c") ("f") ("4") ("5")
    ("01/01/2025") (by decide)⟩

/-- Claim C9, counterexample.  A PartOutbound (`Salida Parte`) job reads
`datetime.now()` and prints the formatted date, so two runs with identical
variant, geometry and text fields but different wall-clock dates produce
different buffers: the job is *not* reproducible from those inputs alone. -/
theorem outbound_date_dependence_cex :
    (button_print_callback .salidaParte 50 5 ("123456") ("c") ("f") ("") ("")
        ("01/01/2025")).buf
      ≠ (button_print_callback .salidaParte 50 5 ("123456") ("c") ("f") ("") ("")
        ("02/01/2025")).buf := by
  intro heq
  have h1 := congrArg (List.filter is_text_cmd) heq
  simp [button_print_callback, List.filter_append, List.filter_cons] at h1

/-- Claim C9 (amended: a job is reproducible from its inputs *plus the
current date*; the two intake variants and the free-form variant never read
the clock, so for them reproducibility from the inputs alone does hold).
The date string argument is irrelevant to the entire `Run` result of those
three variants. -/
theorem variants_time_independent (alto gap : ℚ)
    (osi claim fru l4 l5 hoy1 hoy2 : String) :
    button_print_callback .ingresoEquipo alto gap osi claim fru l4 l5 hoy1
        = button_print_callback .ingresoEquipo alto gap osi claim fru l4 l5 hoy2
      ∧ button_print_callback .ingresoGoldenUnit alto gap osi claim fru l4 l5 hoy1
        = button_print_callback .ingresoGoldenUnit alto gap osi claim fru l4 l5 hoy2
      ∧ button_print_callback .libre alto gap osi claim fru l4 l5 hoy1
        = button_print_callback .libre alto gap osi claim fru l4 l5 hoy2 :=
  ⟨rfl, rfl, rfl⟩

/-- Claim C5, counterexample.  The claim says an EquipmentIntake label with
a 6-character identifier contains 3 text and 3 barcode emissions.  The code
emits the barcode only in the first two blocks — the third block is the
text line alone — so the buffer holds exactly 2 barcode emissions, not 3. -/
theorem equipment_three_barcodes_cex :
    (button_print_callback .ingresoEquipo 50 5 ("123456") ("") ("") ("") ("")
        ("01/01/2025")).buf.countP is_barcode_cmd = 2
      ∧ (2 : ℕ) ≠ 3 := by
  have h : ("123456").length = 6 := rfl
  refine ⟨?_, by decide⟩
  simp [button_print_callback, h, List.countP_append, List.countP_cons]

/-- Claim C5 (amended: an EquipmentIntake label with a 6-character
identifier emits exactly 3 text lines — each showing the identifier twice,
plain and `*`-prefixed — and exactly 2 CODE39 barcodes of the identifier
wrapped in `*…*` with width class 3 and height 48: the first two blocks
are text plus barcode, the third is text only). -/
theorem equipment_blocks_content (alto gap : ℚ)
    (osi claim fru l4 l5 hoy : String) (h : osi.length = 6) :
    (button_print_callback .ingresoEquipo alto gap osi claim fru l4 l5 hoy).buf.filter
        is_text_cmd
        = List.replicate 3 (Cmd.text ((" OSI ") ++ osi ++ ("\t   *") ++ osi))
      ∧ (button_print_callback .ingresoEquipo alto gap osi claim fru l4 l5 hoy).buf.filter
        is_barcode_cmd
        = List.replicate 2
          (Cmd.barcode (("*") ++ osi ++ ("*")) ("CODE39") 3 48 ("OFF") false) := by
  constructor <;>
    simp [button_print_callback, h, List.filter_append, List.filter_cons, List.replicate]

/-- Witness for `equipment_blocks_content` at identifier `"123456"`,
height 50, gap 5. -/
theorem equipment_blocks_content_witness :
    ("123456").length = 6
      ∧ ((button_print_callback .ingresoEquipo 50 5 ("123456") ("c") ("f") ("4") ("5")
            ("01/01/2025")).buf.filter is_text_cmd
          = List.replicate 3 (Cmd.text ((" OSI ") ++ ("123456") ++ ("\t   *") ++ ("123456")))
        ∧ (button_print_callback .ingresoEquipo 50 5 ("123456") ("c") ("f") ("4") ("5")
            ("01/01/2025")).buf.filter is_barcode_cmd
          = List.replicate 2
            (Cmd.barcode (("*") ++ ("123456") ++ ("*")) ("CODE39") 3 48 ("OFF") false)) :=
  ⟨rfl, equipment_blocks_content 50 5 ("123456") ("c") ("f") ("4") ("5") ("01/01/2025") rfl⟩

/-- Claim C6, counterexample.  At the default geometry (height 50, gap 5)
the FreeForm spacing is 3 mm, encoded as the single feed command
`ESC J 24`.  The claim says a 5-block FreeForm label emits exactly
`B - 1 = 4` spacing feeds with none after the fifth line; the code's loop
feeds after *every* line, so the buffer contains 5 such commands.  (No
other command of this job encodes those bytes: the alignment feed is
backward and the final feed is 13 mm = `ESC J 104`.) -/
theorem libre_spacing_feed_count_cex :
    (feed_forward_mm (separacion 50 MARGIN 5 5)).1 = [Cmd.raw [0x1b, 0x4a, 24]]
      ∧ count_cmd (Cmd.raw [0x1b, 0x4a, 24])
        (button_print_callback .libre 50 5 ("linea1") ("linea2") ("linea3") ("linea4")
          ("linea5") ("01/01/2025")).buf = 5
      ∧ (5 : ℕ) ≠ 4 := by
  refine ⟨by rw [sep_50_5_eq]; exact feed3_eq, ?_, by decide⟩
  simp only [button_print_callback, List.foldl, sep_50_5_eq, feed3_eq, feed_forward_snd]
  norm_num [MARGIN, CUTTER_OFFSET]
  rw [feed13_eq, setup_cmds_5_eq]
  simp [count_cmd, reset, set_lf_pitch, set_double_width_and_height, set_alignment,
    set_max_print_speed, set_print_density, set_enhanced_print_on, set_double_strike_on,
    set_margins, full_cut, List.countP_append, List.countP_cons]

/-- Claim C6 (amended: the "no spacing feed after the last block" rule
holds for the 3-block variants — EquipmentIntake emits exactly
`B - 1 = 2` spacing feeds — but the FreeForm loop emits the spacing feed
after every one of its 5 blocks, including the last, for a total of 5).
Stated at the default geometry (height 50, gap 5), where the FreeForm
spacing command is `ESC J 24` and the intake spacing command is
`ESC J 48`, for arbitrary text inputs. -/
theorem spacing_feed_counts (osi claim fru l1 l2 l3 l4 l5 hoy : String)
    (h : osi.length = 6) :
    count_cmd (Cmd.raw [0x1b, 0x4a, 24])
        (button_print_callback .libre 50 5 l1 l2 l3 l4 l5 hoy).buf = 5
      ∧ (feed_forward_mm (separacion 50 MARGIN 5 5)).1 = [Cmd.raw [0x1b, 0x4a, 24]]
      ∧ count_cmd (Cmd.raw [0x1b, 0x4a, 48])
        (button_print_callback .ingresoEquipo 50 5 osi claim fru l4 l5 hoy).buf = 2
      ∧ (feed_forward_mm (separacion 50 MARGIN 5 3)).1 = [Cmd.raw [0x1b, 0x4a, 48]] := by
  refine ⟨?_, by rw [sep_50_5_eq]; exact feed3_eq, ?_,
    by rw [sep_50_3_eq]; exact feed6_eq⟩
  · simp only [button_print_callback, List.foldl, sep_50_5_eq, feed3_eq, feed_forward_snd]
    norm_num [MARGIN, CUTTER_OFFSET]
    rw [feed13_eq, setup_cmds_5_eq]
    simp [count_cmd, reset, set_lf_pitch, set_double_width_and_height, set_alignment,
      set_max_print_speed, set_print_density, set_enhanced_print_on, set_double_strike_on,
      set_margins, full_cut, List.countP_append, List.countP_cons]
  · simp only [button_print_callback, List.foldl, sep_50_3_eq, feed6_eq, feed_forward_snd, h]
    norm_num [MARGIN, CUTTER_OFFSET, AJUSTE]
    rw [feed22_eq, setup_cmds_5_eq]
    simp [count_cmd, reset, set_lf_pitch, set_double_width_and_height, set_alignment,
      set_max_print_speed, set_print_density, set_enhanced_print_on, set_double_strike_on,
      set_margins, full_cut, List.countP_append, List.countP_cons]

/-- Witness for `spacing_feed_counts` at identifier `"123456"` and the
free-form lines `"a".."e"`. -/
theorem spacing_feed_counts_witness :
    ("123456").length = 6
      ∧ (count_cmd (Cmd.raw [0x1b, 0x4a, 24])
          (button_print_callback .libre 50 5 ("a") ("b") ("c") ("d") ("e")
            ("01/01/2025")).buf = 5
        ∧ (feed_forward_mm (separacion 50 MARGIN 5 5)).1 = [Cmd.raw [0x1b, 0x4a, 24]]
        ∧ count_cmd (Cmd.raw [0x1b, 0x4a, 48])
          (button_print_callback .ingresoEquipo 50 5 ("123456") ("b") ("c") ("d") ("e")
            ("01/01/2025")).buf = 2
        ∧ (feed_forward_mm (separacion 50 MARGIN 5 3)).1 = [Cmd.raw [0x1b, 0x4a, 48]]) :=
  ⟨rfl, spacing_feed_counts ("123456") ("b") ("c") ("a") ("b") ("c") ("d") ("e")
    ("01/01/2025") rfl⟩

end OsiPrinter
